import Mathlib

/-!
Shallow embedding of the ambiguity-detection and session-orchestration core of
the document-polishing repository (src/scripts/src/ambiguity_detector.py,
detection_step.py, session_manager.py, session_handlers.py, model_interface.py).

Conventions of the embedding:
* Python floats are modelled as exact rationals (ℚ); the numeric literals
  0.3 / 0.5 / 0.7 of the source are exactly representable choices here.
* Python dicts with a fixed key schema are modelled as structures whose fields
  default to the `dict.get` fallback of the source; dicts used as ordered maps
  (`test_results`, `results`, `interpretations`) are association lists in
  insertion order (the source dicts have unique keys).
* Raised exceptions are modelled with `Except`; a Python function with no
  `raise` on a path is a total Lean function on that path.
* `str(response)` (a Python `repr` of a dict, used only to fill the inert
  `raw_response` field) is not rendered; the field is set to "".
* Subprocess-backed collaborators (vendor CLIs, session handlers) are
  parameters: a handler is a pair of state-passing functions, exactly the
  surface `BaseSessionHandler` exposes to `SessionManager`.
-/

namespace DocPolish

/-! ### ambiguity_detector.py: Severity, Interpretation -/

/-- `class Severity(Enum)` of ambiguity_detector.py. -/
inductive Severity where
  | critical
  | high
  | medium
  | low
deriving DecidableEq, Repr

/-- `Severity.value`: the string payload of each enum member. -/
def Severity.value : Severity → String
  | .critical => "critical"
  | .high => "high"
  | .medium => "medium"
  | .low => "low"

/-- `Severity(s)` (enum lookup by value, as used by `DetectionResult.load`);
`none` models the `ValueError` Python raises on an unknown value. -/
def Severity.ofValue : String → Option Severity
  | "critical" => some .critical
  | "high" => some .high
  | "medium" => some .medium
  | "low" => some .low
  | _ => none

/-- `severity_order` used by `AmbiguityDetector.detect` for the final sort. -/
def severityOrder : Severity → Nat
  | .critical => 0
  | .high => 1
  | .medium => 2
  | .low => 3

/-- A raw per-model response dict as consumed by `Interpretation.from_response`:
the keys the source reads, each defaulting to the source's `get` fallback.
`error` models the truthiness of `response.get('error')`. -/
structure ModelResponse where
  error : Bool := false
  message : Option String := none
  stderr : Option String := none
  raw_response : Option String := none
  interpretation : String := ""
  steps : List String := []
  assumptions : List String := []
  ambiguities : List String := []
deriving DecidableEq, Repr

/-- `@dataclass Interpretation` of ambiguity_detector.py. -/
structure Interpretation where
  model_name : String
  raw_response : String
  interpretation : String := ""
  steps : List String := []
  assumptions : List String := []
  ambiguities : List String := []
  error : Option String := none
deriving DecidableEq, Repr

/-- `Interpretation.from_response`.  On an error-flagged response the error
field holds `response.get('message', response.get('stderr', 'Unknown error'))`
and all content fields stay empty; otherwise the four content fields are read
with their defaults.  (`raw_response=str(response)` is not rendered, see the
file header.) -/
def Interpretation.from_response (model_name : String) (response : ModelResponse) :
    Interpretation :=
  if response.error then
    { model_name := model_name
      raw_response := ""
      error := some (response.message.getD (response.stderr.getD "Unknown error")) }
  else
    { model_name := model_name
      raw_response := ""
      interpretation := response.interpretation
      steps := response.steps
      assumptions := response.assumptions
      ambiguities := response.ambiguities }

/-! ### Keyword extraction (`SimpleComparisonStrategy._extract_keywords`)

`re.findall(r'\b[a-z]{3,}\b', text)` over the lowercased text matches exactly
the maximal runs of word characters (`[a-z0-9_]` once lowercased) that consist
solely of letters and have length at least 3 (a `\b` boundary exists only at
the ends of a maximal word-character run); `re.findall(r'\b\d+\b', text)`
likewise matches the maximal runs consisting solely of digits.  The embedding
splits the text into maximal word-character runs and filters. -/

def isAsciiLowerAlpha (c : Char) : Bool := 'a' ≤ c && c ≤ 'z'

def isAsciiDigit (c : Char) : Bool := '0' ≤ c && c ≤ '9'

def isWordChar (c : Char) : Bool :=
  isAsciiLowerAlpha c || isAsciiDigit c || c = '_'

/-- Split into maximal runs of word characters (accumulator-style, structural). -/
def wordRunsGo (cur : List Char) : List Char → List (List Char)
  | [] => if cur.isEmpty then [] else [cur.reverse]
  | c :: cs =>
    if isWordChar c then
      wordRunsGo (c :: cur) cs
    else
      if cur.isEmpty then wordRunsGo [] cs else cur.reverse :: wordRunsGo [] cs

def wordRuns (l : List Char) : List (List Char) := wordRunsGo [] l

/-- The `stopwords` set of `_extract_keywords`. -/
def stopwords : List String :=
  ["the", "a", "an", "is", "are", "was", "were", "be", "been", "being",
   "have", "has", "had", "do", "does", "did", "will", "would", "could",
   "should", "may", "might", "must", "shall", "can", "need", "to", "of",
   "in", "for", "on", "with", "at", "by", "from", "as", "into", "through",
   "and", "or", "but", "if", "then", "else", "when", "where", "which",
   "that", "this", "these", "those", "it", "its", "i", "you", "we", "they"]

/-- ASCII lowercasing of `text.lower()`, applied at the character level (the
inputs of interest are ASCII, where Python and Unicode lowercasing agree). -/
def lowerChars (l : List Char) : List Char := l.map Char.toLower

/-- `SimpleComparisonStrategy._extract_keywords`. -/
def extractKeywords (text : String) : Finset String :=
  if text = "" then ∅
  else
    let runs := wordRuns (lowerChars text.toList)
    let words := (runs.filter fun r => 3 ≤ r.length && r.all isAsciiLowerAlpha).map
      (fun r => String.mk r)
    let numbers := (runs.filter fun r => !r.isEmpty && r.all isAsciiDigit).map
      (fun r => String.mk r)
    (words.toFinset \ stopwords.toFinset) ∪ numbers.toFinset

/-! ### SimpleComparisonStrategy -/

/-- One entry of the `elements` list built at the top of
`SimpleComparisonStrategy.compare`. -/
structure CompareElement where
  model : String
  keywords : Finset String
  step_count : Nat
  has_assumptions : Bool
  noted_ambiguities : Bool
deriving DecidableEq

def mkElement (i : Interpretation) : CompareElement :=
  { model := i.model_name
    keywords := extractKeywords i.interpretation
    step_count := i.steps.length
    has_assumptions := decide (0 < i.assumptions.length)
    noted_ambiguities := decide (0 < i.ambiguities.length) }

/-- `SimpleComparisonStrategy._calculate_similarity`. -/
def calculateSimilarity (e1 e2 : CompareElement) : ℚ :=
  if e1.keywords = ∅ ∧ e2.keywords = ∅ then 1
  else if e1.keywords = ∅ ∨ e2.keywords = ∅ then 0
  else
    let inter : Nat := (e1.keywords ∩ e2.keywords).card
    let un : Nat := (e1.keywords ∪ e2.keywords).card
    let keyword_sim : ℚ := if 0 < un then (inter : ℚ) / un else 0
    let max_steps : Nat := max (max e1.step_count e2.step_count) 1
    let step_diff : Nat := ((e1.step_count : ℤ) - (e2.step_count : ℤ)).natAbs
    let step_sim : ℚ := 1 - (step_diff : ℚ) / (max_steps : ℚ)
    0.7 * keyword_sim + 0.3 * step_sim

/-- All ordered pairs (i, j) with i before j, in the enumeration order of the
source's `for i / for j in range(i+1, ...)` double loop. -/
def allPairs {α : Type} : List α → List (α × α)
  | [] => []
  | x :: xs => (xs.map fun y => (x, y)) ++ allPairs xs

/-- The `similarities` list of `SimpleComparisonStrategy.compare`:
one `{'pair': ..., 'similarity': ...}` record per i < j pair. -/
def pairwiseSims (elements : List CompareElement) : List ((String × String) × ℚ) :=
  (allPairs elements).map fun p => ((p.1.model, p.2.model), calculateSimilarity p.1 p.2)

/-- `avg_similarity = sum(...)/len(...) if similarities else 1.0`. -/
def avgSimilarity (sims : List ((String × String) × ℚ)) : ℚ :=
  if sims.isEmpty then 1 else (sims.map fun s => s.2).sum / (sims.length : ℚ)

/-- Inner loop of `_group_by_similarity`: collect, among the remaining
elements, the not-yet-used models similar enough to the group seed. -/
def groupInner (threshold : ℚ) (e : CompareElement) :
    List CompareElement → Finset String → List String × Finset String
  | [], used => ([], used)
  | f :: fs, used =>
    if f.model ∈ used then groupInner threshold e fs used
    else if threshold ≤ calculateSimilarity e f then
      let rest := groupInner threshold e fs (insert f.model used)
      (f.model :: rest.1, rest.2)
    else groupInner threshold e fs used

/-- Outer loop of `_group_by_similarity`. -/
def groupOuter (threshold : ℚ) : List CompareElement → Finset String → List (List String)
  | [], _ => []
  | e :: rest, used =>
    if e.model ∈ used then groupOuter threshold rest used
    else
      let inner := groupInner threshold e rest (insert e.model used)
      (e.model :: inner.1) :: groupOuter threshold rest inner.2

/-- `SimpleComparisonStrategy._group_by_similarity`. -/
def groupBySimilarity (threshold : ℚ) (interpretations : List Interpretation)
    (elements : List CompareElement) : List (List String) :=
  if interpretations.length ≤ 1 then
    [interpretations.map fun i => i.model_name]
  else
    groupOuter threshold elements ∅

/-- Format a nonnegative rational with two decimal places, approximating
Python's `f"{x:.2f}"` (the exact binary-float rounding of the source is not
reproduced; this string is display-only and reaches no comparison verdict). -/
def fmt2 (q : ℚ) : String :=
  let c : Nat := (q * 100 + 1 / 2).floor.toNat
  let frac := c % 100
  toString (c / 100) ++ "." ++ (if frac < 10 then "0" else "") ++ toString frac

/-- The comparison-result dict returned by both strategies.  Fields absent from
a given strategy's dict default to the falsy value the consumers' `.get` calls
produce (`[]` / `false`). -/
structure CompareOutput where
  agree : Bool
  similarity : ℚ
  details : String
  groups : List (List String)
  assumptions_made : List String := []
  ambiguities_noted : List String := []
  key_differences : List String := []
deriving DecidableEq, Repr

/-- The `details_parts` assembly of `SimpleComparisonStrategy.compare`. -/
def simpleDetails (threshold avg : ℚ) (agree : Bool)
    (sims : List ((String × String) × ℚ))
    (models_with_assumptions models_noting_ambiguity : List String) : String :=
  let parts₁ : List String :=
    if agree then []
    else
      ("Average similarity: " ++ fmt2 avg) ::
        ((sims.filter fun s => s.2 < threshold).map fun s =>
          s.1.1 ++ " vs " ++ s.1.2 ++ ": " ++ fmt2 s.2)
  let parts₂ : List String :=
    if models_with_assumptions.isEmpty then []
    else ["Models made assumptions: " ++ String.intercalate ", " models_with_assumptions]
  let parts₃ : List String :=
    if models_noting_ambiguity.isEmpty then []
    else ["Models noted ambiguities: " ++ String.intercalate ", " models_noting_ambiguity]
  let parts := parts₁ ++ parts₂ ++ parts₃
  if parts.isEmpty then "Interpretations agree" else String.intercalate "; " parts

/-- `SimpleComparisonStrategy.compare`. -/
def simpleCompare (threshold : ℚ) (interpretations : List Interpretation) : CompareOutput :=
  if interpretations.length < 2 then
    { agree := true, similarity := 1, details := "Only one interpretation", groups := [] }
  else
    let elements := interpretations.map mkElement
    let sims := pairwiseSims elements
    let avg := avgSimilarity sims
    let agree : Bool := decide (threshold ≤ avg)
    let groups := groupBySimilarity threshold interpretations elements
    let models_with_assumptions := (elements.filter fun e => e.has_assumptions).map
      (fun e => e.model)
    let models_noting_ambiguity := (elements.filter fun e => e.noted_ambiguities).map
      (fun e => e.model)
    { agree := agree && models_with_assumptions.isEmpty
      similarity := avg
      details := simpleDetails threshold avg agree sims
        models_with_assumptions models_noting_ambiguity
      groups := groups
      assumptions_made := models_with_assumptions
      ambiguities_noted := models_noting_ambiguity }

/-! ### LLMJudgeStrategy -/

/-- The judge model's reply dict as read by `_parse_judge_response`.  `Option`
fields model key presence (`'agree' not in response` is `agree = none`);
`error` models the truthiness of `response.get('error')`. -/
structure JudgeResponse where
  error : Bool := false
  message : Option String := none
  agree : Option Bool := none
  similarity : Option ℚ := none
  explanation : Option String := none
  key_differences : Option (List String) := none
deriving DecidableEq, Repr

/-- The keys of the judge-response dict, for the diagnostic string of the
missing-`agree` branch (Python prints `list(response.keys())`). -/
def JudgeResponse.presentKeys (r : JudgeResponse) : List String :=
  (if r.error then ["error"] else []) ++
    (if r.message.isSome then ["message"] else []) ++
    (if r.agree.isSome then ["agree"] else []) ++
    (if r.similarity.isSome then ["similarity"] else []) ++
    (if r.explanation.isSome then ["explanation"] else []) ++
    (if r.key_differences.isSome then ["key_differences"] else [])

/-- Python `repr` of a list of strings, e.g. `['similarity']`. -/
def pyListRepr (l : List String) : String :=
  "[" ++ String.intercalate ", " (l.map fun s => "\x27" ++ s ++ "\x27") ++ "]"

/-- `LLMJudgeStrategy._build_comparison_prompt`. -/
def buildComparisonPrompt (interpretations : List Interpretation) : String :=
  let blocks := (List.enumFrom 1 interpretations).map fun p =>
    "\n**Interpretation " ++ toString p.1 ++ " (" ++ p.2.model_name ++ "):**\n" ++
      "Understanding: " ++ p.2.interpretation ++ "\n" ++
      (if p.2.steps.isEmpty then ""
       else "Steps: " ++ String.intercalate ", " (p.2.steps.take 5) ++ "\n") ++
      (if p.2.assumptions.isEmpty then ""
       else "Assumptions made: " ++ String.intercalate ", " p.2.assumptions ++ "\n")
  let interp_text := String.join blocks
  "Compare these interpretations of the same documentation section.\n\n            " ++
    interp_text ++
    "\n\nDo these interpretations describe the same understanding?\n\n" ++
    "Respond with JSON only:\n\x7b\x7b\n\"agree\": true/false,\n" ++
    "\"similarity\": 0.0-1.0,\n" ++
    "\"explanation\": \"brief explanation of agreement or differences\",\n" ++
    "\"key_differences\": [\"difference 1\", \"difference 2\"] or []\n\x7d\x7d\n            "

/-- `LLMJudgeStrategy._parse_judge_response`.  Note: every branch RETURNS a
comparison dict; the source has no raise path (and the repository's
`JudgeFailureError` is not defined in this module at all), so the embedding is
a total function into `CompareOutput`. -/
def parseJudgeResponse (response : JudgeResponse)
    (interpretations : List Interpretation) : CompareOutput :=
  let defaultGroups := interpretations.map fun i => [i.model_name]
  if response.error then
    { agree := false
      similarity := 0.5
      details := "Judge error: " ++ response.message.getD "Unknown"
      groups := defaultGroups }
  else
    match response.agree with
    | none =>
      { agree := false
        similarity := 0.5
        details := "Judge response missing \x27agree\x27 field. Keys: " ++
          pyListRepr response.presentKeys
        groups := defaultGroups }
    | some agree =>
      { agree := agree
        similarity := response.similarity.getD 0.5
        details := response.explanation.getD ""
        groups :=
          if agree then [interpretations.map fun i => i.model_name] else defaultGroups
        key_differences := response.key_differences.getD [] }

/-- `LLMJudgeStrategy.compare`, with the judge query function (a stateless
`ModelManager.query` closure in the source) as an explicit parameter. -/
def judgeCompare (query_func : String → JudgeResponse)
    (interpretations : List Interpretation) : CompareOutput :=
  if interpretations.length < 2 then
    { agree := true, similarity := 1, details := "Only one interpretation", groups := [] }
  else
    parseJudgeResponse (query_func (buildComparisonPrompt interpretations)) interpretations

/-! ### AmbiguityDetector -/

/-- The `{'header': ..., 'content': ...}` keys the detector reads from a
section record (each with its `get` default). -/
structure SectionInfo where
  header : Option String := none
  content : Option String := none
deriving DecidableEq, Repr

/-- One value of the `test_results` mapping: `{'section': ..., 'results': ...}`. -/
structure SectionData where
  sectionInfo : SectionInfo := {}
  results : List (String × ModelResponse) := []
deriving Repr

/-- `@dataclass Ambiguity`.  `comparison_reason` models the extra `'reason'`
key merged into `comparison_details` on the agreed-but-assumptions branch. -/
structure Ambiguity where
  section_id : String
  section_header : String
  section_content : String
  severity : Severity
  interpretations : List (String × Interpretation)
  comparison_details : CompareOutput
  comparison_reason : Option String := none
  suggested_fix : Option String := none
deriving DecidableEq, Repr

/-- `AmbiguityDetector._determine_severity`. -/
def determineSeverity (comparison : CompareOutput) : Severity :=
  if 3 ≤ comparison.groups.length then .critical
  else if comparison.similarity < 0.3 then .critical
  else if comparison.similarity < 0.5 then .high
  else if comparison.similarity < 0.7 then .medium
  else .low

/-- Insert keeping elements with strictly smaller-or-equal sort key in front:
the stable insertion step matching Python's stable `list.sort`. -/
def insertBySeverity (a : Ambiguity) : List Ambiguity → List Ambiguity
  | [] => [a]
  | b :: bs =>
    if severityOrder b.severity ≤ severityOrder a.severity then
      b :: insertBySeverity a bs
    else a :: b :: bs

/-- Stable sort by `severity_order`, as `ambiguities.sort(key=...)`. -/
def sortBySeverity : List Ambiguity → List Ambiguity
  | [] => []
  | a :: as_ => insertBySeverity a (sortBySeverity as_)

/-- The per-section body of `AmbiguityDetector.detect`'s loop: parse, filter
error-flagged interpretations, skip sections with fewer than two survivors,
compare, and emit at most one `Ambiguity`. -/
def detectSection (compare : List Interpretation → CompareOutput)
    (section_id : String) (data : SectionData) : Option Ambiguity :=
  let interpretations := data.results.filterMap fun p =>
    let interp := Interpretation.from_response p.1 p.2
    if interp.error = none then some (p.1, interp) else none
  if interpretations.length < 2 then none
  else
    let comparison := compare (interpretations.map fun p => p.2)
    if !comparison.agree then
      some { section_id := section_id
             section_header := data.sectionInfo.header.getD "Unknown"
             section_content := data.sectionInfo.content.getD ""
             severity := determineSeverity comparison
             interpretations := interpretations
             comparison_details := comparison }
    else if !comparison.assumptions_made.isEmpty then
      some { section_id := section_id
             section_header := data.sectionInfo.header.getD "Unknown"
             section_content := data.sectionInfo.content.getD ""
             severity := .low
             interpretations := interpretations
             comparison_details := comparison
             comparison_reason := some "Models agreed but made assumptions" }
    else none

/-- `AmbiguityDetector.detect`, parameterized by the configured strategy's
`compare` (the detector holds exactly one of `simpleCompare threshold` /
`judgeCompare query_func`). -/
def detect (compare : List Interpretation → CompareOutput)
    (test_results : List (String × SectionData)) : List Ambiguity :=
  sortBySeverity (test_results.filterMap fun p => detectSection compare p.1 p.2)

/-! ### detection_step.py: serialization round trip -/

/-- The per-interpretation sub-dict written by `Ambiguity.to_dict`. -/
structure InterpDict where
  interpretation : String
  steps : List String
  assumptions : List String
  ambiguities : List String
deriving DecidableEq, Repr

/-- The dict written by `Ambiguity.to_dict` (and laid down verbatim as JSON by
`DetectionResult.save`; `json.dump` followed by `json.load` is the identity on
these values). -/
structure AmbiguityDict where
  section_id : String
  section_header : String
  section_content : String
  severity : String
  interpretations : List (String × InterpDict)
  comparison_details : CompareOutput
  comparison_reason : Option String := none
deriving DecidableEq, Repr

/-- `Ambiguity.to_dict`. -/
def Ambiguity.to_dict (a : Ambiguity) : AmbiguityDict :=
  { section_id := a.section_id
    section_header := a.section_header
    section_content := a.section_content
    severity := a.severity.value
    interpretations := a.interpretations.map fun p =>
      (p.1,
        { interpretation := p.2.interpretation
          steps := p.2.steps
          assumptions := p.2.assumptions
          ambiguities := p.2.ambiguities })
    comparison_details := a.comparison_details
    comparison_reason := a.comparison_reason }

/-- The per-record body of `DetectionResult.load`: rebuild an `Ambiguity` from
its dict (`none` models the `ValueError` of `Severity(...)` on an unknown
severity string). -/
def loadAmbiguity (d : AmbiguityDict) : Option Ambiguity := do
  let sev ← Severity.ofValue d.severity
  pure
    { section_id := d.section_id
      section_header := d.section_header
      section_content := d.section_content
      severity := sev
      interpretations := d.interpretations.map fun p =>
        (p.1,
          { model_name := p.1
            raw_response := ""
            interpretation := p.2.interpretation
            steps := p.2.steps
            assumptions := p.2.assumptions
            ambiguities := p.2.ambiguities })
      comparison_details := d.comparison_details
      comparison_reason := d.comparison_reason }

/-- The ambiguity-list reconstruction performed by `DetectionResult.load`'s
`for amb_data in ambiguities_data` loop (severity counts and strategy metadata
are derived bookkeeping on top of this list and carry no additional
round-tripped content). -/
def loadAmbiguities : List AmbiguityDict → Option (List Ambiguity)
  | [] => some []
  | d :: ds => do
    let a ← loadAmbiguity d
    let rest ← loadAmbiguities ds
    pure (a :: rest)

/-! ### session_handlers.py / session_manager.py -/

/-- The session exception hierarchy of session_handlers.py:
`SessionCreationError`, `SessionLostError` and `SessionQueryError` are three
distinct siblings under `SessionError` (none subclasses another, so an
`except` clause naming one never catches the others). -/
inductive SessionError where
  | creation (msg : String)
  | lost (msg : String)
  | query (msg : String)
deriving DecidableEq, Repr

/-- A vendor session handler as seen by `SessionManager`: the two abstract
methods of `BaseSessionHandler`, as state-passing functions over a handler
state `σ` (the subprocess world behind the handler). -/
structure Handler (σ : Type) where
  create_session : String → String → σ → Except SessionError String × σ
  query_session : String → String → σ → Except SessionError ModelResponse × σ

/-- Truthiness of an `Optional[str]`: `None` and `""` are falsy. -/
def strTruthy : Option String → Bool
  | none => false
  | some s => s ≠ ""

/-- Association-list lookup (Python `dict` read). -/
def lookupAssoc {α : Type} (k : String) : List (String × α) → Option α
  | [] => none
  | p :: ps => if p.1 = k then some p.2 else lookupAssoc k ps

/-- Association-list write (Python `d[k] = v`: update in place or append). -/
def insertAssoc {α : Type} (k : String) (v : α) : List (String × α) → List (String × α)
  | [] => [(k, v)]
  | p :: ps => if p.1 = k then (k, v) :: ps else p :: insertAssoc k v ps

/-- Association-list delete (Python `del d[k]`). -/
def eraseAssoc {α : Type} (k : String) : List (String × α) → List (String × α)
  | [] => []
  | p :: ps => if p.1 = k then ps else p :: eraseAssoc k ps

/-- The mutable state of a `SessionManager` instance (configuration fields
plus `sessions`, `_document`, `_purpose`), together with the state of the one
handler the claims exercise (`handlers` is keyed lazily per model in the
source; here the single handler's state is carried alongside). -/
structure ManagerState (σ : Type) where
  mode : String := "auto-recreate"
  purpose_prompt : String := ""
  max_retries : Nat := 1
  sessions : List (String × String) := []
  document : Option String := none
  purpose : Option String := none
  handlerState : σ

/-- `SessionManager.init_session`: remember document and purpose
(`purpose or self.purpose_prompt`), delegate creation, record the session id;
a creation error propagates. -/
def initSession {σ : Type} (h : Handler σ) (st : ManagerState σ)
    (model_name document : String) (purpose : Option String) :
    Except SessionError String × ManagerState σ :=
  let resolved : String :=
    match purpose with
    | some p => if p ≠ "" then p else st.purpose_prompt
    | none => st.purpose_prompt
  let st := { st with document := some document, purpose := some resolved }
  match h.create_session document resolved st.handlerState with
  | (.ok session_id, hs) =>
    (.ok session_id,
      { st with sessions := insertAssoc model_name session_id st.sessions
                handlerState := hs })
  | (.error e, hs) => (.error e, { st with handlerState := hs })

/-- `SessionManager.recreate_session`: refuse without a stored document, drop
the old entry, re-run `init_session` from the remembered document/purpose. -/
def recreateSession {σ : Type} (h : Handler σ) (st : ManagerState σ)
    (model_name : String) : Except SessionError String × ManagerState σ :=
  if !strTruthy st.document then
    (.error (.creation "No document stored for session recreation"), st)
  else
    let st := { st with sessions := eraseAssoc model_name st.sessions }
    initSession h st model_name (st.document.getD "") st.purpose

/-- The `while retries <= self.max_retries` loop of
`SessionManager.query_in_session`.  `fuel` counts the attempts the loop guard
still permits (initially `max_retries + 1`); `fuel = 0` is the fall-through
`raise SessionQueryError("Query failed after ... retries")` below the loop.
On a lost session in auto-recreate mode with a stored document the session is
recreated and the same prompt retried (`retries += 1; continue`); otherwise
(fail-fast mode) the lost-session error is re-raised.  On a generic query
error the attempt counter advances and the original error is re-raised once
the retry budget is exhausted (`time.sleep` between attempts is timing only
and not modelled). -/
def queryLoop {σ : Type} (h : Handler σ) (model_name prompt : String) :
    Nat → String → ManagerState σ → Except SessionError ModelResponse × ManagerState σ
  | 0, _, st =>
    (.error (.query ("Query failed after " ++ toString st.max_retries ++ " retries")), st)
  | fuel + 1, session_id, st =>
    match h.query_session session_id prompt st.handlerState with
    | (.ok r, hs) => (.ok r, { st with handlerState := hs })
    | (.error (.lost e), hs) =>
      let st := { st with handlerState := hs }
      if st.mode = "auto-recreate" && strTruthy st.document then
        match recreateSession h st model_name with
        | (.ok _, st') =>
          queryLoop h model_name prompt fuel ((lookupAssoc model_name st'.sessions).getD "") st'
        | (.error (.creation _), st') =>
          (.error (.query ("Failed to recreate session: " ++ e)), st')
        | (.error err, st') => (.error err, st')
      else
        (.error (.lost e), st)
    | (.error (.query e), hs) =>
      let st := { st with handlerState := hs }
      if fuel = 0 then (.error (.query e), st)
      else queryLoop h model_name prompt fuel session_id st
    | (.error (.creation e), hs) =>
      (.error (.creation e), { st with handlerState := hs })

/-- `SessionManager.query_in_session`. -/
def queryInSession {σ : Type} (h : Handler σ) (st : ManagerState σ)
    (model_name prompt : String) : Except SessionError ModelResponse × ManagerState σ :=
  match lookupAssoc model_name st.sessions with
  | none => (.error (.query ("No active session for model: " ++ model_name)), st)
  | some session_id => queryLoop h model_name prompt (st.max_retries + 1) session_id st

/-! ### model_interface.py: ModelManager.query -/

/-- The slice of a `ModelManager` instance that `query` touches: the loaded
models (each a stateless CLI invocation, subprocess abstracted to a function
from prompt to response dict) and the optional session manager. -/
structure ModelMgr (σ : Type) where
  models : List (String × (String → ModelResponse))
  session_manager : Option (ManagerState σ) := none

/-- `ModelManager.query`: unknown model yields a structured error response;
with a live session, delegate to `query_in_session` and catch exactly
`(SessionQueryError, SessionCreationError)` — falling back to the stateless
CLI call — while a `SessionLostError` (a sibling class not named by the
`except` clause) propagates; otherwise query statelessly. -/
def modelManagerQuery {σ : Type} (h : Handler σ) (mm : ModelMgr σ)
    (model_name prompt : String) (use_session : Bool) :
    Except SessionError ModelResponse × ModelMgr σ :=
  match lookupAssoc model_name mm.models with
  | none =>
    (.ok { error := true
           message := some ("Model \x27" ++ model_name ++ "\x27 not available") }, mm)
  | some cli =>
    match mm.session_manager with
    | some sm =>
      if use_session && (lookupAssoc model_name sm.sessions).isSome then
        match queryInSession h sm model_name prompt with
        | (.ok r, sm') => (.ok r, { mm with session_manager := some sm' })
        | (.error e, sm') =>
          let mm' := { mm with session_manager := some sm' }
          match e with
          | .query _ => (.ok (cli prompt), mm')
          | .creation _ => (.ok (cli prompt), mm')
          | .lost m => (.error (.lost m), mm')
      else (.ok (cli prompt), mm)
    | none => (.ok (cli prompt), mm)

/-! ### Specification-side definitions for the similarity formula

`specPairSimilarityClaimed` follows the specification's wording for the
pairwise score ("0.7 times the Jaccard similarity of the stopword-filtered
keyword sets plus 0.3 times a normalized step-count-difference signal"),
unconditionally; `specPairSimilarityAmended` adds the empty-keyword-set
special cases the source actually implements.  They are compared against the
source-side `calculateSimilarity`. -/

def specJaccard (s t : Finset String) : ℚ :=
  (((s ∩ t).card : ℚ)) / (((s ∪ t).card : ℚ))

def specStepSim (m n : Nat) : ℚ :=
  1 - ((((m : ℤ) - (n : ℤ)).natAbs : ℚ)) / ((max (max m n) 1 : Nat) : ℚ)

def specPairSimilarityClaimed (e1 e2 : CompareElement) : ℚ :=
  0.7 * specJaccard e1.keywords e2.keywords + 0.3 * specStepSim e1.step_count e2.step_count

def specPairSimilarityAmended (e1 e2 : CompareElement) : ℚ :=
  if e1.keywords = ∅ ∧ e2.keywords = ∅ then 1
  else if e1.keywords = ∅ ∨ e2.keywords = ∅ then 0
  else specPairSimilarityClaimed e1 e2

/-- The specification-side average over the i < j pairs. -/
def specAverageSimilarity (interpretations : List Interpretation) : ℚ :=
  let sims := (allPairs (interpretations.map mkElement)).map fun p =>
    specPairSimilarityAmended p.1 p.2
  if sims.isEmpty then 1 else sims.sum / (sims.length : ℚ)

/-! ### Round-trip helper -/

/-- What one interpretation entry becomes after `to_dict` followed by `load`:
keyed identically, content fields preserved, `raw_response` reset to the empty
string and `model_name` taken from the map key. -/
def reloadInterp (p : String × Interpretation) : String × Interpretation :=
  (p.1,
    { model_name := p.1
      raw_response := ""
      interpretation := p.2.interpretation
      steps := p.2.steps
      assumptions := p.2.assumptions
      ambiguities := p.2.ambiguities })

/-- What an `Ambiguity` becomes after `to_dict` followed by `load`. -/
def reload (a : Ambiguity) : Ambiguity :=
  { a with
    interpretations := a.interpretations.map reloadInterp
    suggested_fix := none }

/-! ### Concrete fixtures -/

def iClaudeA : Interpretation :=
  { model_name := "claude", raw_response := "", interpretation := "interpretation A" }

def iGeminiB : Interpretation :=
  { model_name := "gemini", raw_response := "", interpretation := "interpretation B" }

/-- A judge reply carrying an error marker (`{"error": true, "message": ...}`). -/
def judgeErrorReply : JudgeResponse := { error := true, message := some "Timeout after 300s" }

/-- A structurally invalid judge reply lacking the `agree` key
(`{"similarity": 0.5}`). -/
def judgeMissingAgreeReply : JudgeResponse := { similarity := some 0.5 }

/-- An empty judge reply (`{}`). -/
def judgeEmptyReply : JudgeResponse := {}

/-- Fixture of `test_filter_faulty_interpretations`: a whitespace-only
interpretation between two valid ones. -/
def rValidClaude : ModelResponse := { interpretation := "Valid interpretation" }

def rWhitespaceGemini : ModelResponse := { interpretation := "   \n\t  " }

def rValidCodex : ModelResponse := { interpretation := "Another valid interpretation" }

def whitespaceSection : List (String × SectionData) :=
  [("section_0",
    { sectionInfo := { header := some "Test", content := some "Test content" }
      results := [("claude", rValidClaude), ("gemini", rWhitespaceGemini),
                  ("codex", rValidCodex)] })]

/-- Fixture of `test_skips_section_with_less_than_two_valid_interpretations`:
one valid response, one error-flagged, one raw-text fallback (whose parsed
interpretation text is empty). -/
def sparseSection : List (String × SectionData) :=
  [("section_0",
    { sectionInfo := { header := some "Test", content := some "Test content" }
      results := [("claude", { interpretation := "Only valid interpretation" }),
                  ("gemini", { error := true, message := some "Timeout" }),
                  ("codex", { error := false, raw_response := some "unparseable response" })] })]

/-- Two models with identical interpretation text, no assumptions, but each
noting an ambiguity: the simple strategy reports agreement while flagging
shared noted-ambiguities. -/
def sharedConcernSection : List (String × SectionData) :=
  [("section_1",
    { sectionInfo := { header := some "Configuration"
                       content := some "Set timeout appropriately." }
      results := [("claude", { interpretation := "Configure the timeout"
                               ambiguities := ["timeout value not specified"] }),
                  ("gemini", { interpretation := "Configure the timeout"
                               ambiguities := ["what is appropriate timeout"] })] })]

def sharedConcernInterps : List Interpretation :=
  [Interpretation.from_response "claude"
    { interpretation := "Configure the timeout"
      ambiguities := ["timeout value not specified"] },
   Interpretation.from_response "gemini"
    { interpretation := "Configure the timeout"
      ambiguities := ["what is appropriate timeout"] }]

/-- A pair with exactly one empty keyword set and equal step counts. -/
def iHello : Interpretation :=
  { model_name := "claude", raw_response := "", interpretation := "hello"
    steps := ["a", "b"] }

def iBlankSteps : Interpretation :=
  { model_name := "gemini", raw_response := "", interpretation := ""
    steps := ["c", "d"] }

/-- Two keyword-empty interpretations (an empty string, and raw text with no
word of three or more letters), no assumptions. -/
def iKwEmpty1 : Interpretation :=
  { model_name := "claude", raw_response := "", interpretation := "" }

def iKwEmpty2 : Interpretation :=
  { model_name := "gemini", raw_response := "", interpretation := "it is" }

/-- A disagreement comparison with a 2-way grouping and similarity 0.4, for
exercising the severity bands. -/
def midSimComparison : CompareOutput :=
  { agree := false, similarity := 0.4, details := "", groups := [["claude"], ["gemini"]] }

/-- A concrete record for the serialization round trip. -/
def roundTripSample : Ambiguity :=
  { section_id := "section_0"
    section_header := "Test"
    section_content := "Content"
    severity := .high
    interpretations := [("claude", iClaudeA), ("gemini", iGeminiB)]
    comparison_details := { agree := false, similarity := 0.4, details := "d", groups := [["claude"], ["gemini"]] } }

/-! ### Session-layer fixtures (the mocks of test_session_management.py) -/

/-- Observable trace of a mock handler: the `(document, purpose)` argument of
every `create_session` call, and the number of `query_session` calls. -/
structure HandlerLog where
  createCalls : List (String × String) := []
  queryCount : Nat := 0
deriving DecidableEq, Repr

/-- The mock of `test_auto_recreate_on_session_lost` / `test_fail_fast_mode`:
`create_session` succeeds with ids session-123 then session-456;
`query_session` raises a lost-session error on the first call and returns `r`
on the second. -/
def mockHandler (r : ModelResponse) : Handler HandlerLog :=
  { create_session := fun doc purpose s =>
      (.ok (if s.createCalls.isEmpty then "session-123" else "session-456"),
       { s with createCalls := s.createCalls ++ [(doc, purpose)] })
    query_session := fun _ _ s =>
      ((if s.queryCount = 0 then .error (.lost "Session lost") else .ok r),
       { s with queryCount := s.queryCount + 1 }) }

/-- A handler whose session queries always raise a lost-session error. -/
def lostHandler : Handler HandlerLog :=
  { create_session := fun doc purpose s =>
      (.ok "session-123", { s with createCalls := s.createCalls ++ [(doc, purpose)] })
    query_session := fun _ _ s =>
      (.error (.lost "Session lost"), { s with queryCount := s.queryCount + 1 }) }

/-- A handler whose session queries always raise a generic query error. -/
def queryErrHandler : Handler HandlerLog :=
  { create_session := fun doc purpose s =>
      (.ok "session-123", { s with createCalls := s.createCalls ++ [(doc, purpose)] })
    query_session := fun _ _ s =>
      (.error (.query "rate limit"), { s with queryCount := s.queryCount + 1 }) }

/-- The session configuration of the tests (`max_retries = 1`), before any
session exists. -/
def freshManager (mode : String) : ManagerState HandlerLog :=
  { mode := mode, purpose_prompt := "Test document analysis", max_retries := 1
    handlerState := {} }

/-- The manager after `init_session("claude", "# Document", "Purpose")`. -/
def managerAfterInit (h : Handler HandlerLog) (mode : String) : ManagerState HandlerLog :=
  (initSession h (freshManager mode) "claude" "# Document" (some "Purpose")).2

/-- The stateless CLI invocation available for the claude model. -/
def statelessResp : ModelResponse := { interpretation := "stateless result" }

def statelessCli : String → ModelResponse := fun _ => statelessResp

/-- A model manager in fail-fast mode whose claude session is live but lost. -/
def mmFailFast : ModelMgr HandlerLog :=
  { models := [("claude", statelessCli)]
    session_manager := some (managerAfterInit lostHandler "fail-fast") }

/-- A model manager whose claude session queries fail with a generic query
error (exhausting the retry budget). -/
def mmQueryErr : ModelMgr HandlerLog :=
  { models := [("claude", statelessCli)]
    session_manager := some (managerAfterInit queryErrHandler "auto-recreate") }

def respSuccess : ModelResponse := { interpretation := "success" }

/-! ## Theorems -/

section
attribute [local semireducible] Rat.mul Rat.inv Rat.add Rat.sub Rat.ofScientific

theorem Severity.ofValue_value (s : Severity) : Severity.ofValue s.value = some s := by
  cases s <;> rfl

theorem calculateSimilarity_eq_specAmended (e1 e2 : CompareElement) :
    calculateSimilarity e1 e2 = specPairSimilarityAmended e1 e2 := by
  unfold calculateSimilarity specPairSimilarityAmended specPairSimilarityClaimed
    specJaccard specStepSim
  split_ifs with h1 h2
  · rfl
  · rfl
  · push_neg at h2
    have hx := Finset.nonempty_iff_ne_empty.mpr h2.1
    obtain ⟨x, hx⟩ := hx
    have hpos : 0 < (e1.keywords ∪ e2.keywords).card :=
      Finset.card_pos.mpr ⟨x, Finset.mem_union_left _ hx⟩
    simp only [hpos, if_true, if_pos]

theorem pairwiseSims_map_snd (es : List CompareElement) :
    (pairwiseSims es).map (fun s => s.2)
      = (allPairs es).map fun p => specPairSimilarityAmended p.1 p.2 := by
  simp [pairwiseSims, List.map_map, Function.comp, calculateSimilarity_eq_specAmended]

theorem avgSimilarity_eq_spec (interps : List Interpretation) :
    avgSimilarity (pairwiseSims (interps.map mkElement)) = specAverageSimilarity interps := by
  unfold avgSimilarity specAverageSimilarity
  rw [← pairwiseSims_map_snd]
  simp [pairwiseSims]

theorem assumptions_flag (interps : List Interpretation) :
    ((((interps.map mkElement).filter fun e => e.has_assumptions).map
        fun e => e.model).isEmpty = false)
      ↔ ∃ i ∈ interps, i.assumptions ≠ [] := by
  simp [mkElement, List.isEmpty_iff, List.filter_eq_nil_iff, Nat.pos_iff_ne_zero,
    List.length_eq_zero]

/-- C1: for judge replies carrying an error marker, lacking the required
`agree` field, or empty, `LLMJudgeStrategy.compare` (via
`_parse_judge_response`) does NOT raise a distinguished judge failure: the
source has no raise path and defines no `JudgeFailureError`; it returns a
default comparison verdict — a disagreement with similarity 0.5 — for all
three malformed shapes.  This contradicts the claim (and the repository's own
`test_judge_fail_fast.py`, and the `JudgeFailureError` imports of
detection_step.py / polish.py / detect_ambiguities.py). -/
theorem judge_malformed_reply_returns_disagreement_verdict :
    judgeCompare (fun _ => judgeErrorReply) [iClaudeA, iGeminiB]
      = { agree := false, similarity := 0.5
          details := "Judge error: Timeout after 300s"
          groups := [["claude"], ["gemini"]] }
  ∧ (judgeCompare (fun _ => judgeMissingAgreeReply) [iClaudeA, iGeminiB]).agree = false
  ∧ (judgeCompare (fun _ => judgeMissingAgreeReply) [iClaudeA, iGeminiB]).similarity = 0.5
  ∧ (judgeCompare (fun _ => judgeEmptyReply) [iClaudeA, iGeminiB]).agree = false
  ∧ (judgeCompare (fun _ => judgeEmptyReply) [iClaudeA, iGeminiB]).similarity = 0.5 := by
  refine ⟨?_, ?_, ?_, ?_, ?_⟩ <;> decide

/-- C2: `AmbiguityDetector.detect` filters only error-flagged responses; a
whitespace-only interpretation (here gemini's, between two valid ones) is NOT
dropped and appears in the produced Ambiguity's interpretation map,
contradicting the claim (and `test_filters_out_whitespace_only_interpretations`). -/
theorem detect_keeps_whitespace_interpretation :
    (detect (simpleCompare 0.7) whitespaceSection).map
        (fun a => a.interpretations.map Prod.fst)
      = [["claude", "gemini", "codex"]]
  ∧ rWhitespaceGemini.error = false
  ∧ rWhitespaceGemini.interpretation = "   \n\t  " := by
  refine ⟨?_, rfl, rfl⟩
  decide

/-- C3: on a section with only ONE usable interpretation (claude's; gemini's
is error-flagged, codex's parses to an empty interpretation text),
`AmbiguityDetector.detect` does not skip the section: the error-only filter
leaves two entries, the strategy is invoked, and an Ambiguity is emitted —
contradicting the claim (and
`test_skips_section_with_less_than_two_valid_interpretations`). -/
theorem detect_emits_on_single_usable_interpretation :
    (detect (simpleCompare 0.7) sparseSection).map
        (fun a => a.interpretations.map Prod.fst)
      = [["claude", "codex"]]
  ∧ (Interpretation.from_response "codex"
       { error := false, raw_response := some "unparseable response" }).interpretation
      = "" := by
  refine ⟨?_, rfl⟩
  decide

/-- C8: when the simple strategy reports agreement while both models note
ambiguities (shared concerns), `AmbiguityDetector.detect` emits NO Ambiguity:
its secondary branch checks only `assumptions_made` (hard-coding severity low)
and ignores `ambiguities_noted`, contradicting the claim (and
`test_shared_ambiguity_detection.py`, which expects low for two sharing models
and medium for three). -/
theorem detect_drops_shared_noted_ambiguities :
    (simpleCompare 0.7 sharedConcernInterps).agree = true
  ∧ (simpleCompare 0.7 sharedConcernInterps).ambiguities_noted = ["claude", "gemini"]
  ∧ detect (simpleCompare 0.7) sharedConcernSection = [] := by
  refine ⟨?_, ?_, ?_⟩ <;> decide

/-- C4: with a handler whose session query raises a lost-session error on the
first call and returns `r` on the second, `SessionManager.query_in_session`
in auto-recreate mode recreates the session from the remembered document and
purpose and returns the second call's result, with `create_session` invoked
exactly twice (both times with the remembered `("# Document", "Purpose")`);
in fail-fast mode it re-raises the lost-session error and `create_session`
was invoked only once (at initialization). -/
theorem query_in_session_recreates_or_fails_fast (r : ModelResponse) :
    (queryInSession (mockHandler r) (managerAfterInit (mockHandler r) "auto-recreate")
        "claude" "Analyze this").1 = .ok r
  ∧ (queryInSession (mockHandler r) (managerAfterInit (mockHandler r) "auto-recreate")
        "claude" "Analyze this").2.handlerState.createCalls
      = [("# Document", "Purpose"), ("# Document", "Purpose")]
  ∧ (queryInSession (mockHandler r) (managerAfterInit (mockHandler r) "fail-fast")
        "claude" "Analyze this").1 = .error (.lost "Session lost")
  ∧ (queryInSession (mockHandler r) (managerAfterInit (mockHandler r) "fail-fast")
        "claude" "Analyze this").2.handlerState.createCalls
      = [("# Document", "Purpose")] :=
  ⟨rfl, rfl, rfl, rfl⟩

/-- C4 witness: the scenario at the concrete successful response. -/
theorem query_in_session_recreates_or_fails_fast_witness :
    (queryInSession (mockHandler respSuccess)
        (managerAfterInit (mockHandler respSuccess) "auto-recreate")
        "claude" "Analyze this").1 = .ok respSuccess
  ∧ (queryInSession (mockHandler respSuccess)
        (managerAfterInit (mockHandler respSuccess) "fail-fast")
        "claude" "Analyze this").1 = .error (.lost "Session lost") :=
  ⟨(query_in_session_recreates_or_fails_fast respSuccess).1,
   (query_in_session_recreates_or_fails_fast respSuccess).2.2.1⟩

/-- C5 counterexample: with a live claude session in fail-fast mode and a
handler raising a lost-session error, `ModelManager.query` PROPAGATES the
`SessionLostError` (its `except` clause names only `SessionQueryError` and
`SessionCreationError`, and `SessionLostError` is a sibling class) instead of
returning the available stateless result — refuting the claim for the
lost-session case. -/
theorem model_manager_query_propagates_lost_session :
    (modelManagerQuery lostHandler mmFailFast "claude" "Analyze this" true).1
      = .error (.lost "Session lost")
  ∧ statelessCli "Analyze this" = statelessResp := by
  exact ⟨rfl, rfl⟩

/-- C5 (amended): whenever the session layer fails with a query error or a
creation error, `ModelManager.query` does not propagate it and returns the
stateless one-shot CLI result instead; only a lost-session error escaping
`query_in_session` (which happens exactly in fail-fast mode) propagates. -/
theorem model_manager_query_falls_back_on_query_or_creation_error {σ : Type}
    (h : Handler σ) (models : List (String × (String → ModelResponse)))
    (sm : ManagerState σ) (model_name prompt : String) (cli : String → ModelResponse)
    (hm : lookupAssoc model_name models = some cli)
    (hsess : (lookupAssoc model_name sm.sessions).isSome = true)
    (m : String)
    (hq : (queryInSession h sm model_name prompt).1 = .error (.query m)
        ∨ (queryInSession h sm model_name prompt).1 = .error (.creation m)) :
    (modelManagerQuery h { models := models, session_manager := some sm }
        model_name prompt true).1
      = .ok (cli prompt) := by
  unfold modelManagerQuery
  cases hqp : queryInSession h sm model_name prompt with
  | mk fst snd =>
    rw [hqp] at hq
    rcases hq with hq | hq <;> simp only at hq <;> subst hq <;>
      simp [hm, hsess, hqp]

/-- C5 witness: the amended theorem at the concrete query-error manager. -/
theorem model_manager_query_falls_back_witness :
    (modelManagerQuery queryErrHandler mmQueryErr "claude" "Analyze this" true).1
      = .ok (statelessCli "Analyze this") :=
  model_manager_query_falls_back_on_query_or_creation_error queryErrHandler
    [("claude", statelessCli)] (managerAfterInit queryErrHandler "auto-recreate")
    "claude" "Analyze this" statelessCli rfl rfl "rate limit" (Or.inl rfl)

/-- C6 counterexample: on a pair whose keyword sets are {hello} and ∅ with
step counts 2 and 2, the claimed blend 0.7·Jaccard + 0.3·step-signal equals
3/10, but `SimpleComparisonStrategy.compare` reports similarity 0 (the source
special-cases an empty keyword set to 0.0 before the blend), so the reported
score is not the claimed average. -/
theorem simple_compare_similarity_defies_claimed_formula :
    (simpleCompare 0.7 [iHello, iBlankSteps]).similarity = 0
  ∧ specPairSimilarityClaimed (mkElement iHello) (mkElement iBlankSteps) = 3/10
  ∧ pairwiseSims [mkElement iHello, mkElement iBlankSteps]
      = [(("claude", "gemini"), 0)] := by
  refine ⟨?_, ?_, ?_⟩ <;> decide

/-- C6 (amended): for two or more Interpretations,
`SimpleComparisonStrategy.compare` reports as its similarity score the
average of the pairwise scores, where a pair with both keyword sets empty
scores 1, a pair with exactly one empty keyword set scores 0, and otherwise
the score is 0.7 times the Jaccard similarity of the keyword sets plus 0.3
times the normalized step-count-difference signal; it reports disagreement
(`agree = false`) exactly when that average is below the configured threshold
or at least one Interpretation has a non-empty assumptions list. -/
theorem simple_compare_reports_spec_average_and_agreement (threshold : ℚ)
    (interps : List Interpretation) (h2 : 2 ≤ interps.length) :
    (simpleCompare threshold interps).similarity = specAverageSimilarity interps
  ∧ ((simpleCompare threshold interps).agree = false ↔
      (specAverageSimilarity interps < threshold ∨ ∃ i ∈ interps, i.assumptions ≠ [])) := by
  have hlt : ¬ interps.length < 2 := by omega
  constructor
  · simp only [simpleCompare, if_neg hlt]
    exact avgSimilarity_eq_spec interps
  · simp only [simpleCompare, if_neg hlt]
    rw [Bool.and_eq_false_iff, decide_eq_false_iff_not, not_le, avgSimilarity_eq_spec]
    exact or_congr Iff.rfl (assumptions_flag interps)

/-- C6 witness: the amended statement at a concrete two-element list and the
default threshold 0.7. -/
theorem simple_compare_reports_spec_average_witness :
    (simpleCompare 0.7 [iClaudeA, iGeminiB]).similarity
      = specAverageSimilarity [iClaudeA, iGeminiB]
  ∧ ((simpleCompare 0.7 [iClaudeA, iGeminiB]).agree = false ↔
      (specAverageSimilarity [iClaudeA, iGeminiB] < 0.7
        ∨ ∃ i ∈ [iClaudeA, iGeminiB], i.assumptions ≠ [])) :=
  simple_compare_reports_spec_average_and_agreement 0.7 [iClaudeA, iGeminiB] (by decide)

/-- C7: `_determine_severity` assigns critical whenever the comparison's
groups number three or more, regardless of the similarity; otherwise it
assigns critical below 0.3, high on [0.3, 0.5), medium on [0.5, 0.7), and low
at or above 0.7. -/
theorem determine_severity_bands (c : CompareOutput) :
    (3 ≤ c.groups.length → determineSeverity c = .critical)
  ∧ (c.groups.length < 3 →
      ((c.similarity < 0.3 → determineSeverity c = .critical)
     ∧ (0.3 ≤ c.similarity → c.similarity < 0.5 → determineSeverity c = .high)
     ∧ (0.5 ≤ c.similarity → c.similarity < 0.7 → determineSeverity c = .medium)
     ∧ (0.7 ≤ c.similarity → determineSeverity c = .low))) := by
  unfold determineSeverity
  constructor
  · intro h3
    rw [if_pos h3]
  · intro h3
    have hng : ¬ 3 ≤ c.groups.length := by omega
    rw [if_neg hng]
    refine ⟨fun h1 => ?_, fun h1 h2 => ?_, fun h1 h2 => ?_, fun h1 => ?_⟩ <;>
      split_ifs <;> first | rfl | linarith

/-- C7 witness: a two-way split with similarity 0.4 is high severity. -/
theorem determine_severity_bands_witness :
    determineSeverity midSimComparison = .high :=
  ((determine_severity_bands midSimComparison).2 (by decide)).2.1 (by decide) (by decide)

/-- Round-trip of one record: `load` after `to_dict` rebuilds the same record
up to the reset `raw_response`/`suggested_fix` fields. -/
theorem loadAmbiguity_to_dict (a : Ambiguity) :
    loadAmbiguity a.to_dict = some (reload a) := by
  rcases a with ⟨sid, sh, sc, sev, interps, cd, cr, sf⟩
  unfold loadAmbiguity Ambiguity.to_dict reload
  rw [Severity.ofValue_value]
  simp [List.map_map, reloadInterp, Function.comp]

/-- Pointwise form of the interpretation-text preservation. -/
theorem reload_interp_texts (a : Ambiguity) :
    (reload a).interpretations.map (fun p => (p.1, p.2.interpretation))
      = a.interpretations.map fun p => (p.1, p.2.interpretation) := by
  simp only [reload, List.map_map]
  rfl

/-- C9: serializing a list of Ambiguity records with `to_dict` (the content
`DetectionResult.save` writes as JSON) and reloading with the
`DetectionResult.load` reconstruction yields a list with identical section
ids, section headers, severities, and per-model interpretation text. -/
theorem ambiguity_save_load_round_trip (ambs : List Ambiguity) :
    ∃ l, loadAmbiguities (ambs.map Ambiguity.to_dict) = some l
  ∧ l.map (fun a => a.section_id) = ambs.map (fun a => a.section_id)
  ∧ l.map (fun a => a.section_header) = ambs.map (fun a => a.section_header)
  ∧ l.map (fun a => a.severity) = ambs.map (fun a => a.severity)
  ∧ l.map (fun a => a.interpretations.map fun p => (p.1, p.2.interpretation))
      = ambs.map fun a => a.interpretations.map fun p => (p.1, p.2.interpretation) := by
  refine ⟨ambs.map reload, ?_, ?_, ?_, ?_, ?_⟩
  · induction ambs with
    | nil => rfl
    | cons a t ih => simp [loadAmbiguities, loadAmbiguity_to_dict, ih]
  · rw [List.map_map]; rfl
  · rw [List.map_map]; rfl
  · rw [List.map_map]; rfl
  · induction ambs with
    | nil => rfl
    | cons a t ih =>
      simp only [List.map_cons]
      exact congrArg₂ List.cons (reload_interp_texts a) ih

/-- C9 witness: the round trip at a concrete two-model record. -/
theorem ambiguity_save_load_round_trip_witness :
    ∃ l, loadAmbiguities ([roundTripSample].map Ambiguity.to_dict) = some l
  ∧ l.map (fun a => a.section_id) = [roundTripSample].map (fun a => a.section_id)
  ∧ l.map (fun a => a.section_header) = [roundTripSample].map (fun a => a.section_header)
  ∧ l.map (fun a => a.severity) = [roundTripSample].map (fun a => a.severity)
  ∧ l.map (fun a => a.interpretations.map fun p => (p.1, p.2.interpretation))
      = [roundTripSample].map fun a => a.interpretations.map fun p => (p.1, p.2.interpretation) :=
  ambiguity_save_load_round_trip [roundTripSample]

/-- C10: `_calculate_similarity` scores a pair with both keyword sets empty
as exactly 1, and a pair with exactly one empty keyword set as exactly 0;
consequently two keyword-empty Interpretations (an empty string and raw text
with no word of three or more letters) with no assumptions are reported by
`SimpleComparisonStrategy.compare` as agreeing with similarity 1. -/
theorem empty_keyword_pairs_similarity :
    (∀ e1 e2 : CompareElement, e1.keywords = ∅ → e2.keywords = ∅ →
      calculateSimilarity e1 e2 = 1)
  ∧ (∀ e1 e2 : CompareElement, e1.keywords = ∅ → e2.keywords ≠ ∅ →
      calculateSimilarity e1 e2 = 0)
  ∧ (∀ e1 e2 : CompareElement, e1.keywords ≠ ∅ → e2.keywords = ∅ →
      calculateSimilarity e1 e2 = 0)
  ∧ ((simpleCompare 0.7 [iKwEmpty1, iKwEmpty2]).agree = true
  ∧ (simpleCompare 0.7 [iKwEmpty1, iKwEmpty2]).similarity = 1
  ∧ extractKeywords iKwEmpty1.interpretation = ∅
  ∧ extractKeywords iKwEmpty2.interpretation = ∅
  ∧ iKwEmpty1.assumptions = [] ∧ iKwEmpty2.assumptions = []) := by
  refine ⟨?_, ?_, ?_, by decide⟩
  · intro e1 e2 h1 h2
    unfold calculateSimilarity
    rw [if_pos ⟨h1, h2⟩]
  · intro e1 e2 h1 h2
    unfold calculateSimilarity
    rw [if_neg (fun hc => h2 hc.2), if_pos (Or.inl h1)]
  · intro e1 e2 h1 h2
    unfold calculateSimilarity
    rw [if_neg (fun hc => h1 hc.1), if_pos (Or.inr h2)]

/-- C10 witness: the general parts at concrete keyword-empty and
keyword-nonempty elements. -/
theorem empty_keyword_pairs_similarity_witness :
    calculateSimilarity (mkElement iKwEmpty1) (mkElement iKwEmpty2) = 1
  ∧ calculateSimilarity (mkElement iKwEmpty1) (mkElement iHello) = 0
  ∧ calculateSimilarity (mkElement iHello) (mkElement iKwEmpty1) = 0 :=
  ⟨empty_keyword_pairs_similarity.1 _ _ (by decide) (by decide),
   empty_keyword_pairs_similarity.2.1 _ _ (by decide) (by decide),
   empty_keyword_pairs_similarity.2.2.1 _ _ (by decide) (by decide)⟩

end

end DocPolish
